import Mathlib

/-!
# Verification of the Student-Server record service

Shallow embedding of the Student CRUD HTTP service:
* `src/config/dbInit.js` — idempotent schema creation (`createStudentTable`);
* `src/index.js` — startup sequence (`initialize()`: await schema creation, then listen);
* `src/routes/students.js` — one handler per route, each issuing a single
  parameterized SQL statement against the pool and mapping result/absence/error
  to an HTTP response.

The storage engine (PostgreSQL via a connection pool) is modelled as a table
state `Table` together with per-statement semantics: parameterized values sent
for an `INTEGER` column are parsed by `pgParseInt` (invalid text raises a
statement error), `NOT NULL` columns reject missing/null values per affected
row, written values must fit the `VARCHAR` length bounds and the 32-bit
`INTEGER` range of the schema (`fitsColumns`, checked per affected row),
and any statement may also fail for external reasons (connectivity),
modelled by the `dbFail` flag each handler call carries for its single query.
Statement errors never mutate the table (per-statement atomicity).
-/

set_option autoImplicit false

namespace StudentServer

/-- One row of the `students` table (schema from `src/config/dbInit.js`):
`id SERIAL PRIMARY KEY, name VARCHAR(100) NOT NULL, age INTEGER NOT NULL,
course VARCHAR(100) NOT NULL, gender VARCHAR(10) NOT NULL`. -/
structure Student where
  id : Int
  name : String
  age : Int
  course : String
  gender : String
deriving Repr, DecidableEq

/-- The stored state: the rows of the `students` table plus the `SERIAL`
sequence that assigns the next `id`. -/
structure Table where
  rows : List Student
  nextId : Int
deriving Repr, DecidableEq

/-- A parsed JSON request body as the handlers see `req.body`. Each of the
four destructured fields may be absent (`undefined`, sent to storage as
null). The `id` field stands for a client-supplied `id` (or any other extra
body field): no handler in `src/routes/students.js` ever reads it. -/
structure ReqBody where
  name : Option String
  age : Option Int
  course : Option String
  gender : Option String
  id : Option Int
deriving Repr, DecidableEq

/-- Reasons a single SQL statement can fail. -/
inductive DBErr where
  /-- External failure (connectivity, pool exhaustion, ...). -/
  | connFail
  /-- A `NOT NULL` column received a null value on an affected row. -/
  | notNullViolation
  /-- A parameter for an `INTEGER` column was not valid integer text. -/
  | invalidTextRep
  /-- A value exceeded its column's `VARCHAR` length bound or the 32-bit
  `INTEGER` range (value too long / out of range). -/
  | boundViolation
deriving Repr, DecidableEq

/-- A JSON response body as the handlers produce it. -/
inductive RespBody where
  /-- `res.json(row)` — a single record. -/
  | record (s : Student)
  /-- `res.json(rows)` — an array of records. -/
  | records (l : List Student)
  /-- `res.json(\x7b error: msg \x7d)`. -/
  | err (msg : String)
  /-- `res.json(\x7b message: msg \x7d)`. -/
  | message (msg : String)
  /-- `res.json(undefined)` — `result.rows[0]` on an empty result. -/
  | undef
deriving Repr, DecidableEq

/-- An HTTP response: status code and JSON body. -/
structure Response where
  status : Nat
  body : RespBody
deriving Repr, DecidableEq

/-- The fixed storage-error response every catch branch produces:
`res.status(500).json with error "Database error"`. -/
def dbErrorResponse : Response := ⟨500, RespBody.err "Database error"⟩

/-- The fixed not-found response: `res.status(404).json with error "Student not found"`. -/
def notFoundResponse : Response := ⟨404, RespBody.err "Student not found"⟩

/-- Digit-string value: `some n` iff the character list is one or more
decimal digits. -/
def digitsVal (cs : List Char) : Option Nat :=
  if cs ≠ [] ∧ cs.all (fun c => c.isDigit) then
    some (cs.foldl (fun a c => a * 10 + (c.toNat - 48)) 0)
  else none

/-- Strip leading and trailing whitespace from a character list. -/
def trimChars (cs : List Char) : List Char :=
  ((cs.dropWhile (fun c => c.isWhitespace)).reverse.dropWhile
    (fun c => c.isWhitespace)).reverse

/-- PostgreSQL `INTEGER` input parsing of a text parameter: surrounding
whitespace is ignored, then an optional sign and one or more digits, within
the 32-bit range; anything else raises `invalid input syntax for type
integer` (modelled as `none`). -/
def pgParseInt (s : String) : Option Int :=
  let core : Option Int :=
    match trimChars s.toList with
    | [] => none
    | c :: cs =>
      if c.toNat = 43 then (digitsVal cs).map (fun n => (n : Int))
      else if c.toNat = 45 then (digitsVal cs).map (fun n => -(n : Int))
      else (digitsVal (c :: cs)).map (fun n => (n : Int))
  core.bind (fun n => if -2147483648 ≤ n ∧ n ≤ 2147483647 then some n else none)

/-- The column bounds of the `students` schema in `src/config/dbInit.js`:
`name VARCHAR(100)`, `age INTEGER` (32-bit), `course VARCHAR(100)`,
`gender VARCHAR(10)`. A stored value violating one of these fails the
writing statement. -/
def fitsColumns (nm : String) (a : Int) (c : String) (g : String) : Prop :=
  nm.length ≤ 100 ∧ (-2147483648 ≤ a ∧ a ≤ 2147483647) ∧ c.length ≤ 100 ∧ g.length ≤ 10

instance (nm : String) (a : Int) (c g : String) : Decidable (fitsColumns nm a c g) := by
  unfold fitsColumns; infer_instance

/-- `INSERT INTO students (name, age, course, gender) VALUES ($1,$2,$3,$4)
RETURNING *`. The `SERIAL` sequence assigns `id`; a null among the four
`NOT NULL` columns, an over-length `VARCHAR` value or an out-of-range
`INTEGER` fails the statement; on success the inserted row is returned. -/
def sqlInsert (dbFail : Bool) (t : Table) (name : Option String) (age : Option Int)
    (course : Option String) (gender : Option String) : Except DBErr (Table × List Student) :=
  if dbFail then Except.error DBErr.connFail else
  match name, age, course, gender with
  | some nm, some a, some c, some g =>
    if fitsColumns nm a c g then
      let s : Student := ⟨t.nextId, nm, a, c, g⟩
      Except.ok (⟨t.rows ++ [s], t.nextId + 1⟩, [s])
    else Except.error DBErr.boundViolation
  | _, _, _, _ => Except.error DBErr.notNullViolation

/-- `SELECT * FROM students`. -/
def sqlSelectAll (dbFail : Bool) (t : Table) : Except DBErr (Table × List Student) :=
  if dbFail then Except.error DBErr.connFail else Except.ok (t, t.rows)

/-- `SELECT * FROM students WHERE id = $1` with the raw path string as the
parameter: the text is parsed as an `INTEGER` (failing the statement when
invalid), then the matching rows are returned. -/
def sqlSelectById (dbFail : Bool) (t : Table) (idStr : String) :
    Except DBErr (Table × List Student) :=
  if dbFail then Except.error DBErr.connFail else
  match pgParseInt idStr with
  | none => Except.error DBErr.invalidTextRep
  | some n => Except.ok (t, t.rows.filter (fun s => s.id == n))

/-- `SELECT * FROM students WHERE gender = $1` — exact string equality. -/
def sqlSelectByGender (dbFail : Bool) (t : Table) (g : String) :
    Except DBErr (Table × List Student) :=
  if dbFail then Except.error DBErr.connFail
  else Except.ok (t, t.rows.filter (fun s => s.gender == g))

/-- `SELECT * FROM students WHERE course = $1` — exact string equality. -/
def sqlSelectByCourse (dbFail : Bool) (t : Table) (c : String) :
    Except DBErr (Table × List Student) :=
  if dbFail then Except.error DBErr.connFail
  else Except.ok (t, t.rows.filter (fun s => s.course == c))

/-- `SELECT * FROM students WHERE name = $1` — exact string equality. -/
def sqlSelectByName (dbFail : Bool) (t : Table) (nm : String) :
    Except DBErr (Table × List Student) :=
  if dbFail then Except.error DBErr.connFail
  else Except.ok (t, t.rows.filter (fun s => s.name == nm))

/-- `UPDATE students SET name=$1, age=$2, course=$3, gender=$4 WHERE id=$5
RETURNING *`. The id parameter is parsed as `INTEGER`; when no row matches,
the statement succeeds with zero returned rows (no per-row check is made);
when rows match, a null among the four values violates `NOT NULL` and an
over-length `VARCHAR` or out-of-range `INTEGER` value violates its column
bound, otherwise every matching row has all four fields replaced and the
updated rows are returned. -/
def sqlUpdateById (dbFail : Bool) (t : Table) (idStr : String) (name : Option String)
    (age : Option Int) (course : Option String) (gender : Option String) :
    Except DBErr (Table × List Student) :=
  if dbFail then Except.error DBErr.connFail else
  match pgParseInt idStr with
  | none => Except.error DBErr.invalidTextRep
  | some n =>
    if (t.rows.filter (fun s => s.id == n)).isEmpty then Except.ok (t, [])
    else
      match name, age, course, gender with
      | some nm, some a, some c, some g =>
        if fitsColumns nm a c g then
          Except.ok
            (⟨t.rows.map (fun s => if s.id == n then ⟨s.id, nm, a, c, g⟩ else s), t.nextId⟩,
             (t.rows.filter (fun s => s.id == n)).map (fun s => ⟨s.id, nm, a, c, g⟩))
        else Except.error DBErr.boundViolation
      | _, _, _, _ => Except.error DBErr.notNullViolation

/-- `DELETE FROM students WHERE id = $1 RETURNING *`: the matching rows are
removed from the table and returned. -/
def sqlDeleteById (dbFail : Bool) (t : Table) (idStr : String) :
    Except DBErr (Table × List Student) :=
  if dbFail then Except.error DBErr.connFail else
  match pgParseInt idStr with
  | none => Except.error DBErr.invalidTextRep
  | some n =>
    Except.ok (⟨t.rows.filter (fun s => !(s.id == n)), t.nextId⟩,
               t.rows.filter (fun s => s.id == n))

/-- JavaScript `result.rows[0]` passed to `res.json`: the first row, or
`undefined` when the result set is empty. -/
def jsonFirstRow : List Student → RespBody
  | [] => RespBody.undef
  | r :: _ => RespBody.record r

/-- `router.post("/")`: destructure `name, age, course, gender` from the body
(any other field, such as a client-supplied `id`, is never read), run the
INSERT, answer 201 with `result.rows[0]` on success and the generic 500 on
any statement error. -/
def createStudent (dbFail : Bool) (t : Table) (body : ReqBody) : Response × Table :=
  match sqlInsert dbFail t body.name body.age body.course body.gender with
  | Except.error _ => (dbErrorResponse, t)
  | Except.ok (t', rows) => (⟨201, jsonFirstRow rows⟩, t')

/-- `router.get("/")`: answer 200 with all rows, or the generic 500. -/
def listStudents (dbFail : Bool) (t : Table) : Response × Table :=
  match sqlSelectAll dbFail t with
  | Except.error _ => (dbErrorResponse, t)
  | Except.ok (t', rows) => (⟨200, RespBody.records rows⟩, t')

/-- `router.get("/:id")`: run the SELECT with the raw path segment; 404 when
`result.rows.length === 0`, else 200 with `result.rows[0]`; generic 500 on
any statement error. -/
def getStudentById (dbFail : Bool) (t : Table) (idStr : String) : Response × Table :=
  match sqlSelectById dbFail t idStr with
  | Except.error _ => (dbErrorResponse, t)
  | Except.ok (t', rows) =>
    if rows.length == 0 then (notFoundResponse, t')
    else (⟨200, jsonFirstRow rows⟩, t')

/-- `router.put("/:id")`: run the UPDATE with the raw path segment and the
four destructured body fields; 404 when `result.rows.length === 0`, else 200
with `result.rows[0]`; generic 500 on any statement error. -/
def updateStudent (dbFail : Bool) (t : Table) (idStr : String) (body : ReqBody) :
    Response × Table :=
  match sqlUpdateById dbFail t idStr body.name body.age body.course body.gender with
  | Except.error _ => (dbErrorResponse, t)
  | Except.ok (t', rows) =>
    if rows.length == 0 then (notFoundResponse, t')
    else (⟨200, jsonFirstRow rows⟩, t')

/-- `router.delete("/:id")`: run the DELETE with the raw path segment; 404
when `result.rows.length === 0`, else 200 with the confirmation message;
generic 500 on any statement error. -/
def deleteStudent (dbFail : Bool) (t : Table) (idStr : String) : Response × Table :=
  match sqlDeleteById dbFail t idStr with
  | Except.error _ => (dbErrorResponse, t)
  | Except.ok (t', rows) =>
    if rows.length == 0 then (notFoundResponse, t')
    else (⟨200, RespBody.message "Student deleted successfully"⟩, t')

/-- `router.get("/gender/:gender")`: always 200 with the (possibly empty)
array of matching rows; generic 500 on any statement error. -/
def getStudentsByGender (dbFail : Bool) (t : Table) (g : String) : Response × Table :=
  match sqlSelectByGender dbFail t g with
  | Except.error _ => (dbErrorResponse, t)
  | Except.ok (t', rows) => (⟨200, RespBody.records rows⟩, t')

/-- `router.get("/course/:course")`: always 200 with the (possibly empty)
array of matching rows; generic 500 on any statement error. -/
def getStudentsByCourse (dbFail : Bool) (t : Table) (c : String) : Response × Table :=
  match sqlSelectByCourse dbFail t c with
  | Except.error _ => (dbErrorResponse, t)
  | Except.ok (t', rows) => (⟨200, RespBody.records rows⟩, t')

/-- `router.get("/name/:name")`: 404 when `result.rows.length === 0`, else
200 with `result.rows[0]` (the first match storage returns); generic 500 on any
statement error. -/
def getStudentByName (dbFail : Bool) (t : Table) (nm : String) : Response × Table :=
  match sqlSelectByName dbFail t nm with
  | Except.error _ => (dbErrorResponse, t)
  | Except.ok (t', rows) =>
    if rows.length == 0 then (notFoundResponse, t')
    else (⟨200, jsonFirstRow rows⟩, t')

/-- Observable startup events of the process (`src/index.js` and
`src/config/dbInit.js`). -/
inductive StartEvent where
  /-- `console.log("Students table created successfully or already exists.")` -/
  | tableCreated
  /-- `console.error("Error creating students table:", error)` -/
  | initErrorLogged
  /-- `app.listen(PORT, ...)` — the server starts accepting connections. -/
  | serverListening
deriving Repr, DecidableEq

/-- `createStudentTable` from `src/config/dbInit.js`: `CREATE TABLE IF NOT
EXISTS students (...)`. Takes whether the table already exists and whether
the statement fails; returns the new schema state, the logged events, and
whether an exception escapes the function — the catch branch only logs, so
nothing ever escapes. -/
def createStudentTable (tableExists : Bool) (dbFail : Bool) :
    Bool × List StartEvent × Bool :=
  if dbFail then (tableExists, [StartEvent.initErrorLogged], false)
  else (true, [StartEvent.tableCreated], false)

/-- The `initialize()` function of `src/index.js`: `await
createStudentTable()`, then `app.listen(PORT, ...)`. The listen step is
reached unless schema creation threw (it never does). -/
def startupSequence (tableExists : Bool) (dbFail : Bool) : Bool × List StartEvent :=
  let (ex, evts, thrown) := createStudentTable tableExists dbFail
  if thrown then (ex, evts) else (ex, evts ++ [StartEvent.serverListening])

/-- `SERIAL` sequence invariant: every stored id is below the next value the
sequence will hand out (so fresh ids never collide with stored rows). -/
def Table.seqFresh (t : Table) : Prop :=
  ∀ s ∈ t.rows, s.id < t.nextId

instance (t : Table) : Decidable t.seqFresh := by
  unfold Table.seqFresh; infer_instance

/-! ## Helper lemmas -/

theorem filter_id_append_single (rows : List Student) (s : Student) (n : Int)
    (hfresh : ∀ r ∈ rows, r.id < n) (hs : s.id = n) :
    (rows ++ [s]).filter (fun r => r.id == n) = [s] := by
  rw [List.filter_append]
  have h1 : rows.filter (fun r => r.id == n) = [] := by
    rw [List.filter_eq_nil_iff]
    intro r hr
    simp only [beq_iff_eq]
    exact Int.ne_of_lt (hfresh r hr)
  simp [h1, List.filter, hs]

theorem filter_id_after_remove (rows : List Student) (n : Int) :
    (rows.filter (fun s => !(s.id == n))).filter (fun s => s.id == n) = [] := by
  rw [List.filter_eq_nil_iff]
  intro r hr
  have := (List.mem_filter.mp hr).2
  simp only [Bool.not_eq_true'] at this
  simp [this]

/-! ## Claims -/

/-- **C1.** For every create request whose body carries the four fields
`name`, `age`, `course`, `gender` with values the schema columns accept
(the successful-create condition), the Create handler succeeds with status
201 and the full created record, whose `id` is the freshly assigned sequence
value `t.nextId` — an integer distinct from every stored id — and a
subsequent Get-by-id on that id answers 200 with a record identical to the
created one, leaving the table as Create left it. -/
theorem create_then_get_returns_created
    (t : Table) (body : ReqBody) (nm c g : String) (a : Int) (idStr : String)
    (hn : body.name = some nm) (ha : body.age = some a)
    (hc : body.course = some c) (hg : body.gender = some g)
    (hfit : fitsColumns nm a c g)
    (hfresh : t.seqFresh)
    (hid : pgParseInt idStr = some t.nextId) :
    (createStudent false t body).1 =
      ⟨201, RespBody.record ⟨t.nextId, nm, a, c, g⟩⟩ ∧
    (∀ s ∈ t.rows, s.id ≠ t.nextId) ∧
    getStudentById false (createStudent false t body).2 idStr =
      (⟨200, RespBody.record ⟨t.nextId, nm, a, c, g⟩⟩, (createStudent false t body).2) := by
  have hnew : ∀ s ∈ t.rows, s.id ≠ t.nextId := fun s hs => Int.ne_of_lt (hfresh s hs)
  have hcr : createStudent false t body =
      (⟨201, RespBody.record ⟨t.nextId, nm, a, c, g⟩⟩,
       ⟨t.rows ++ [⟨t.nextId, nm, a, c, g⟩], t.nextId + 1⟩) := by
    simp [createStudent, sqlInsert, hn, ha, hc, hg, hfit, jsonFirstRow]
  refine ⟨by rw [hcr], hnew, ?_⟩
  rw [hcr]
  have hfilter : (t.rows ++ [(⟨t.nextId, nm, a, c, g⟩ : Student)]).filter
      (fun r => r.id == t.nextId) = [⟨t.nextId, nm, a, c, g⟩] :=
    filter_id_append_single t.rows _ t.nextId hfresh rfl
  simp [getStudentById, sqlSelectById, hid, hfilter, jsonFirstRow]

/-- **C1 witness.** Concrete instance: POST `name:"Ann", age:20, course:"CS",
gender:"female"` on the empty table, then GET `/students/1`. -/
theorem create_then_get_returns_created_witness :
    (createStudent false ⟨[], 1⟩ ⟨some "Ann", some 20, some "CS", some "female", none⟩).1 =
      ⟨201, RespBody.record ⟨1, "Ann", 20, "CS", "female"⟩⟩ ∧
    (∀ s ∈ (⟨[], 1⟩ : Table).rows, s.id ≠ 1) ∧
    getStudentById false
        (createStudent false ⟨[], 1⟩ ⟨some "Ann", some 20, some "CS", some "female", none⟩).2 "1" =
      (⟨200, RespBody.record ⟨1, "Ann", 20, "CS", "female"⟩⟩,
       (createStudent false ⟨[], 1⟩ ⟨some "Ann", some 20, some "CS", some "female", none⟩).2) :=
  create_then_get_returns_created ⟨[], 1⟩ ⟨some "Ann", some 20, some "CS", some "female", none⟩
    "Ann" "CS" "female" 20 "1" rfl rfl rfl rfl (by decide) (by decide) (by decide)

/-- Example table shared by the concrete witnesses: one row `id 1, Ann, 20,
CS, female`, next sequence value 2. -/
def exTable : Table := ⟨[⟨1, "Ann", 20, "CS", "female"⟩], 2⟩

/-- Example well-formed update body shared by the concrete witnesses. -/
def exBody : ReqBody := ⟨some "Bob", some 21, some "Math", some "male", none⟩

/-- **C2.** For every Update-by-id request carrying the four body fields and
an integer id: when a row with that id exists and the four values fit the
schema columns, every matching row has all four fields replaced (nothing
else changes, the sequence included) and the response is 200 with the
updated record carrying the same id; when no row matches, the response is
404 and the table is left exactly as it was. -/
theorem update_replaces_all_fields_or_404
    (t : Table) (body : ReqBody) (nm c g : String) (a : Int) (idStr : String) (n : Int)
    (hn : body.name = some nm) (ha : body.age = some a)
    (hc : body.course = some c) (hg : body.gender = some g)
    (hid : pgParseInt idStr = some n) :
    (t.rows.filter (fun s => s.id == n) = [] →
      updateStudent false t idStr body = (notFoundResponse, t)) ∧
    (∀ r rest, t.rows.filter (fun s => s.id == n) = r :: rest →
      fitsColumns nm a c g →
      updateStudent false t idStr body =
        (⟨200, RespBody.record ⟨r.id, nm, a, c, g⟩⟩,
         ⟨t.rows.map (fun s => if s.id == n then ⟨s.id, nm, a, c, g⟩ else s), t.nextId⟩) ∧
      r.id = n) := by
  constructor
  · intro hf
    simp [updateStudent, sqlUpdateById, hid, hf, notFoundResponse]
  · intro r rest hf hfit
    have hrid : r.id = n := by
      have hr : r ∈ t.rows.filter (fun s => s.id == n) := hf ▸ List.mem_cons_self r rest
      exact beq_iff_eq.mp (List.mem_filter.mp hr).2
    refine ⟨?_, hrid⟩
    simp [updateStudent, sqlUpdateById, hid, hf, hn, ha, hc, hg, hfit, jsonFirstRow]

/-- **C2 witness.** On `exTable`: PUT `/students/5` answers 404 and leaves
the table alone; PUT `/students/1` with `exBody` answers 200 with the fully
replaced record of id 1. -/
theorem update_replaces_all_fields_or_404_witness :
    updateStudent false exTable "5" exBody = (notFoundResponse, exTable) ∧
    updateStudent false exTable "1" exBody =
      (⟨200, RespBody.record ⟨1, "Bob", 21, "Math", "male"⟩⟩,
       ⟨[⟨1, "Bob", 21, "Math", "male"⟩], 2⟩) :=
  ⟨(update_replaces_all_fields_or_404 exTable exBody "Bob" "Math" "male" 21 "5" 5
      rfl rfl rfl rfl (by decide)).1 (by decide),
   ((update_replaces_all_fields_or_404 exTable exBody "Bob" "Math" "male" 21 "1" 1
      rfl rfl rfl rfl (by decide)).2 ⟨1, "Ann", 20, "CS", "female"⟩ [] (by decide)
      (by decide)).1⟩

/-- **C3.** For every Delete-by-id request with an integer id: when a row
with that id exists, every row with that id is removed, the response is 200
with the confirmation message, and a subsequent Get-by-id on the same id
answers 404 with the table unchanged; when no row matches, the response is
404 and the table is left exactly as it was. -/
theorem delete_removes_row_or_404 (t : Table) (idStr : String) (n : Int)
    (hid : pgParseInt idStr = some n) :
    (t.rows.filter (fun s => s.id == n) = [] →
      deleteStudent false t idStr = (notFoundResponse, t)) ∧
    (t.rows.filter (fun s => s.id == n) ≠ [] →
      deleteStudent false t idStr =
        (⟨200, RespBody.message "Student deleted successfully"⟩,
         ⟨t.rows.filter (fun s => !(s.id == n)), t.nextId⟩) ∧
      getStudentById false (deleteStudent false t idStr).2 idStr =
        (notFoundResponse, (deleteStudent false t idStr).2)) := by
  constructor
  · intro hf
    have hkeep : t.rows.filter (fun s => !(s.id == n)) = t.rows := by
      rw [List.filter_eq_self]
      intro s hs
      have hne := List.filter_eq_nil_iff.mp hf s hs
      simpa using hne
    simp [deleteStudent, sqlDeleteById, hid, hf, hkeep, notFoundResponse]
  · intro hf
    have hdel : deleteStudent false t idStr =
        (⟨200, RespBody.message "Student deleted successfully"⟩,
         ⟨t.rows.filter (fun s => !(s.id == n)), t.nextId⟩) := by
      simp [deleteStudent, sqlDeleteById, hid, List.length_eq_zero, hf]
    refine ⟨hdel, ?_⟩
    rw [hdel]
    simp [getStudentById, sqlSelectById, hid, filter_id_after_remove, notFoundResponse]

/-- **C3 witness.** On `exTable`: DELETE `/students/5` answers 404 leaving
the table alone; DELETE `/students/1` answers 200 with the confirmation and
GET `/students/1` afterwards answers 404. -/
theorem delete_removes_row_or_404_witness :
    deleteStudent false exTable "5" = (notFoundResponse, exTable) ∧
    (deleteStudent false exTable "1" =
      (⟨200, RespBody.message "Student deleted successfully"⟩, ⟨[], 2⟩) ∧
     getStudentById false (deleteStudent false exTable "1").2 "1" =
      (notFoundResponse, (deleteStudent false exTable "1").2)) :=
  ⟨(delete_removes_row_or_404 exTable "5" 5 (by decide)).1 (by decide),
   (delete_removes_row_or_404 exTable "1" 1 (by decide)).2 (by decide)⟩

/-- **C4.** For every Get-by-id request with an integer id, the table is
never modified, the response is the generic 404 not-found exactly when zero
rows match the id, and whenever some rows match the response is 200 with the
first matching record. -/
theorem get_by_id_404_iff_no_match (t : Table) (idStr : String) (n : Int)
    (hid : pgParseInt idStr = some n) :
    (getStudentById false t idStr).2 = t ∧
    ((getStudentById false t idStr).1 = notFoundResponse ↔
      t.rows.filter (fun s => s.id == n) = []) ∧
    (∀ r rest, t.rows.filter (fun s => s.id == n) = r :: rest →
      (getStudentById false t idStr).1 = ⟨200, RespBody.record r⟩) := by
  cases hf : t.rows.filter (fun s => s.id == n) with
  | nil =>
    simp [getStudentById, sqlSelectById, hid, hf, notFoundResponse]
  | cons r rest =>
    simp [getStudentById, sqlSelectById, hid, hf, notFoundResponse, jsonFirstRow,
      Response.mk.injEq]

/-- **C4 witness.** On `exTable`: GET `/students/1` answers 200 with the Ann
record, GET `/students/5` answers 404, neither touches the table. -/
theorem get_by_id_404_iff_no_match_witness :
    ((getStudentById false exTable "1").2 = exTable ∧
     (getStudentById false exTable "1").1 = ⟨200, RespBody.record ⟨1, "Ann", 20, "CS", "female"⟩⟩) ∧
    ((getStudentById false exTable "5").2 = exTable ∧
     (getStudentById false exTable "5").1 = notFoundResponse) :=
  ⟨⟨(get_by_id_404_iff_no_match exTable "1" 1 (by decide)).1,
    (get_by_id_404_iff_no_match exTable "1" 1 (by decide)).2.2
      ⟨1, "Ann", 20, "CS", "female"⟩ [] (by decide)⟩,
   ⟨(get_by_id_404_iff_no_match exTable "5" 5 (by decide)).1,
    (get_by_id_404_iff_no_match exTable "5" 5 (by decide)).2.1.mpr (by decide)⟩⟩

/-- **C5.** For every stored table and every path value, List-by-gender and
List-by-course answer 200 with exactly the rows whose `gender` (respectively
`course`) equals the path value under exact string equality — in particular
an empty array, still with status 200 and never a 404, when nothing matches —
and leave the table unchanged. -/
theorem list_by_gender_course_exact_match (t : Table) (v : String) :
    getStudentsByGender false t v =
      (⟨200, RespBody.records (t.rows.filter (fun s => s.gender == v))⟩, t) ∧
    getStudentsByCourse false t v =
      (⟨200, RespBody.records (t.rows.filter (fun s => s.course == v))⟩, t) := by
  constructor <;>
    simp [getStudentsByGender, getStudentsByCourse, sqlSelectByGender, sqlSelectByCourse]

/-- Example table with a duplicated name: Ann appears with ids 1 and 2. -/
def exTableDup : Table :=
  ⟨[⟨1, "Ann", 20, "CS", "female"⟩, ⟨2, "Ann", 22, "Math", "female"⟩], 3⟩

/-- **C6.** For every Get-by-name request: when at least one row carries the
requested name, the handler answers 200 with exactly one record — the
first match storage returns, which is one of the matching rows (a stored row whose name is
the requested one); when zero rows match it answers 404. The table is never
modified. -/
theorem get_by_name_returns_one_match (t : Table) (nm : String) :
    (t.rows.filter (fun s => s.name == nm) = [] →
      getStudentByName false t nm = (notFoundResponse, t)) ∧
    (∀ r rest, t.rows.filter (fun s => s.name == nm) = r :: rest →
      getStudentByName false t nm = (⟨200, RespBody.record r⟩, t) ∧
      r ∈ t.rows ∧ r.name = nm) := by
  constructor
  · intro hf
    simp [getStudentByName, sqlSelectByName, hf, notFoundResponse]
  · intro r rest hf
    have hr : r ∈ t.rows.filter (fun s => s.name == nm) := hf ▸ List.mem_cons_self r rest
    have hmem := List.mem_filter.mp hr
    refine ⟨?_, hmem.1, beq_iff_eq.mp hmem.2⟩
    simp [getStudentByName, sqlSelectByName, hf, jsonFirstRow]

/-- **C6 witness.** On the table where two rows share the name Ann, GET
`/students/name/Ann` answers 200 with the first Ann row, which is stored and
named Ann; GET `/students/name/Zoe` answers 404. -/
theorem get_by_name_returns_one_match_witness :
    (getStudentByName false exTableDup "Ann" =
      (⟨200, RespBody.record ⟨1, "Ann", 20, "CS", "female"⟩⟩, exTableDup) ∧
     (⟨1, "Ann", 20, "CS", "female"⟩ : Student) ∈ exTableDup.rows ∧
     (⟨1, "Ann", 20, "CS", "female"⟩ : Student).name = "Ann") ∧
    getStudentByName false exTableDup "Zoe" = (notFoundResponse, exTableDup) :=
  ⟨(get_by_name_returns_one_match exTableDup "Ann").2
      ⟨1, "Ann", 20, "CS", "female"⟩ [⟨2, "Ann", 22, "Math", "female"⟩] (by decide),
   (get_by_name_returns_one_match exTableDup "Zoe").1 (by decide)⟩

/-- **C7.** For every operation, whenever its single statement fails —
whatever the failure `e` — the handler answers exactly the fixed generic
response `500 / error: Database error` (no error detail leaks into the
response) and the stored table is untouched, so the failed request affects
no other state. -/
theorem storage_error_gives_generic_500
    (dbFail : Bool) (t : Table) (body : ReqBody) (idStr v : String) (e : DBErr) :
    (sqlInsert dbFail t body.name body.age body.course body.gender = Except.error e →
      createStudent dbFail t body = (dbErrorResponse, t)) ∧
    (sqlSelectAll dbFail t = Except.error e →
      listStudents dbFail t = (dbErrorResponse, t)) ∧
    (sqlSelectById dbFail t idStr = Except.error e →
      getStudentById dbFail t idStr = (dbErrorResponse, t)) ∧
    (sqlUpdateById dbFail t idStr body.name body.age body.course body.gender = Except.error e →
      updateStudent dbFail t idStr body = (dbErrorResponse, t)) ∧
    (sqlDeleteById dbFail t idStr = Except.error e →
      deleteStudent dbFail t idStr = (dbErrorResponse, t)) ∧
    (sqlSelectByGender dbFail t v = Except.error e →
      getStudentsByGender dbFail t v = (dbErrorResponse, t)) ∧
    (sqlSelectByCourse dbFail t v = Except.error e →
      getStudentsByCourse dbFail t v = (dbErrorResponse, t)) ∧
    (sqlSelectByName dbFail t v = Except.error e →
      getStudentByName dbFail t v = (dbErrorResponse, t)) := by
  refine ⟨fun h => ?_, fun h => ?_, fun h => ?_, fun h => ?_,
    fun h => ?_, fun h => ?_, fun h => ?_, fun h => ?_⟩ <;>
    simp [createStudent, listStudents, getStudentById, updateStudent, deleteStudent,
      getStudentsByGender, getStudentsByCourse, getStudentByName, h]

/-- **C7 witness.** With the storage failing (connectivity), every one of
the eight handlers answers the fixed generic 500 and leaves `exTable`
untouched. -/
theorem storage_error_gives_generic_500_witness :
    createStudent true exTable exBody = (dbErrorResponse, exTable) ∧
    listStudents true exTable = (dbErrorResponse, exTable) ∧
    getStudentById true exTable "1" = (dbErrorResponse, exTable) ∧
    updateStudent true exTable "1" exBody = (dbErrorResponse, exTable) ∧
    deleteStudent true exTable "1" = (dbErrorResponse, exTable) ∧
    getStudentsByGender true exTable "female" = (dbErrorResponse, exTable) ∧
    getStudentsByCourse true exTable "CS" = (dbErrorResponse, exTable) ∧
    getStudentByName true exTable "Ann" = (dbErrorResponse, exTable) :=
  ⟨(storage_error_gives_generic_500 true exTable exBody "1" "female" DBErr.connFail).1 rfl,
   (storage_error_gives_generic_500 true exTable exBody "1" "female" DBErr.connFail).2.1 rfl,
   (storage_error_gives_generic_500 true exTable exBody "1" "female" DBErr.connFail).2.2.1 rfl,
   (storage_error_gives_generic_500 true exTable exBody "1" "female" DBErr.connFail).2.2.2.1 rfl,
   (storage_error_gives_generic_500 true exTable exBody "1" "female" DBErr.connFail).2.2.2.2.1 rfl,
   (storage_error_gives_generic_500 true exTable exBody "1" "female" DBErr.connFail).2.2.2.2.2.1 rfl,
   (storage_error_gives_generic_500 true exTable exBody "1" "CS" DBErr.connFail).2.2.2.2.2.2.1 rfl,
   (storage_error_gives_generic_500 true exTable exBody "1" "Ann" DBErr.connFail).2.2.2.2.2.2.2 rfl⟩

/-- **C8.** For every schema state and whether the schema statement fails,
the startup sequence never sees an exception escape schema creation, its
event trace is exactly the schema-creation events followed by the server
starting to listen (so schema initialization completes before connections
are accepted, and the server listens even after a logged failure), and the
create-if-absent statement is idempotent: on success the table exists, and
running it again changes nothing. -/
theorem startup_schema_init_before_listen (tableExists dbFail : Bool) :
    (createStudentTable tableExists dbFail).2.2 = false ∧
    (startupSequence tableExists dbFail).2 =
      (createStudentTable tableExists dbFail).2.1 ++ [StartEvent.serverListening] ∧
    (startupSequence tableExists true).2 =
      [StartEvent.initErrorLogged, StartEvent.serverListening] ∧
    (startupSequence tableExists false).2 =
      [StartEvent.tableCreated, StartEvent.serverListening] ∧
    (createStudentTable tableExists false).1 = true ∧
    (createStudentTable (createStudentTable tableExists false).1 false).1 =
      (createStudentTable tableExists false).1 := by
  cases tableExists <;> cases dbFail <;> decide

/-- **C9.** For every Get-by-id, Update-by-id, or Delete-by-id request whose
id path segment is not valid integer text, the statement fails at storage
and the handler answers the generic 500 — not 404 — with the table
unchanged. -/
theorem non_integer_id_gives_500 (t : Table) (idStr : String) (body : ReqBody)
    (hbad : pgParseInt idStr = none) :
    getStudentById false t idStr = (dbErrorResponse, t) ∧
    updateStudent false t idStr body = (dbErrorResponse, t) ∧
    deleteStudent false t idStr = (dbErrorResponse, t) := by
  refine ⟨?_, ?_, ?_⟩ <;>
    simp [getStudentById, updateStudent, deleteStudent, sqlSelectById, sqlUpdateById,
      sqlDeleteById, hbad]

/-- **C9 witness.** GET, PUT and DELETE on `/students/abc` all answer the
generic 500 and leave `exTable` untouched. -/
theorem non_integer_id_gives_500_witness :
    getStudentById false exTable "abc" = (dbErrorResponse, exTable) ∧
    updateStudent false exTable "abc" exBody = (dbErrorResponse, exTable) ∧
    deleteStudent false exTable "abc" = (dbErrorResponse, exTable) :=
  non_integer_id_gives_500 exTable "abc" exBody (by decide)

/-- **C10.** The Create handler reads only the four fields `name`, `age`,
`course`, `gender` of the body: two bodies agreeing on those four — whatever
`id` or extra data the client also sent — produce identical outcomes, and
whenever a record is created its `id` is the storage sequence value
`t.nextId`, never a client-supplied one. -/
theorem create_ignores_client_id (dbFail : Bool) (t : Table) (b1 b2 : ReqBody)
    (h1 : b1.name = b2.name) (h2 : b1.age = b2.age)
    (h3 : b1.course = b2.course) (h4 : b1.gender = b2.gender) :
    createStudent dbFail t b1 = createStudent dbFail t b2 ∧
    (∀ s : Student, (createStudent false t b1).1.body = RespBody.record s →
      s.id = t.nextId) := by
  constructor
  · simp [createStudent, h1, h2, h3, h4]
  · intro s hs
    rcases hname : b1.name with _ | nm <;> rcases hage : b1.age with _ | a <;>
      rcases hcourse : b1.course with _ | c <;> rcases hgender : b1.gender with _ | g <;>
      simp [createStudent, sqlInsert, hname, hage, hcourse, hgender, jsonFirstRow,
        dbErrorResponse] at hs
    by_cases hfit : fitsColumns nm a c g
    · simp [hfit, jsonFirstRow] at hs
      simp [← hs]
    · simp [hfit, dbErrorResponse] at hs

/-- **C10 witness.** A body carrying a client-supplied `id 99` creates
exactly what the same body without it creates, and the record the response
carries has the sequence id 2 of `exTable`, not 99. -/
theorem create_ignores_client_id_witness :
    createStudent false exTable ⟨some "Ann", some 20, some "CS", some "female", some 99⟩ =
      createStudent false exTable ⟨some "Ann", some 20, some "CS", some "female", none⟩ ∧
    (⟨2, "Ann", 20, "CS", "female"⟩ : Student).id = exTable.nextId :=
  ⟨(create_ignores_client_id false exTable
      ⟨some "Ann", some 20, some "CS", some "female", some 99⟩
      ⟨some "Ann", some 20, some "CS", some "female", none⟩ rfl rfl rfl rfl).1,
   (create_ignores_client_id false exTable
      ⟨some "Ann", some 20, some "CS", some "female", some 99⟩
      ⟨some "Ann", some 20, some "CS", some "female", none⟩ rfl rfl rfl rfl).2
     ⟨2, "Ann", 20, "CS", "female"⟩ (by decide)⟩

end StudentServer
